import Mathlib

/-!
Shallow embedding of the rendering/replay shim of `gym-anm`
(`src/gym_anm/envs/anm6_env/anm6.py`) and of the case-format constants
(`src/gym_smartgrid/constants.py`), together with theorems settling the
frozen claims about this slice of the repository.

Python values that flow through the rendering history (lists of floats,
lists of lists, strings) are modelled by the dynamically-typed value type
`PyVal`; numbers are modelled as integers since no claim computes with
their magnitudes.  External I/O (visualization server, `time.sleep`,
CSV writing) is modelled as an explicit effect trace.  Exceptions are
modelled with an explicit error component; since Python exceptions leave
the object in whatever state the mutations so far produced, every
operation returns the (possibly partially mutated) object state alongside
the error or result.
-/

/-- A dynamically typed Python value, as stored in the rendering history:
numbers (modelled as integers), strings and (nested) lists. -/
inductive PyVal where
  | num (n : Int)
  | str (s : String)
  | list (l : List PyVal)
deriving Repr

/-- Decidable equality on `PyVal`, by mutual recursion with list equality. -/
def PyVal.decEq : (a b : PyVal) → Decidable (a = b)
  | .num a, .num b =>
      if h : a = b then .isTrue (by rw [h]) else .isFalse (by simp [h])
  | .str a, .str b =>
      if h : a = b then .isTrue (by rw [h]) else .isFalse (by simp [h])
  | .list a, .list b =>
      match decEqList a b with
      | .isTrue h => .isTrue (by rw [h])
      | .isFalse h => .isFalse (by simp [h])
  | .num _, .str _ => .isFalse (by intro h; exact PyVal.noConfusion h)
  | .num _, .list _ => .isFalse (by intro h; exact PyVal.noConfusion h)
  | .str _, .num _ => .isFalse (by intro h; exact PyVal.noConfusion h)
  | .str _, .list _ => .isFalse (by intro h; exact PyVal.noConfusion h)
  | .list _, .num _ => .isFalse (by intro h; exact PyVal.noConfusion h)
  | .list _, .str _ => .isFalse (by intro h; exact PyVal.noConfusion h)
where
  decEqList : (as bs : List PyVal) → Decidable (as = bs)
  | [], [] => .isTrue rfl
  | [], _ :: _ => .isFalse (by intro h; exact List.noConfusion h)
  | _ :: _, [] => .isFalse (by intro h; exact List.noConfusion h)
  | a :: as, b :: bs =>
      match PyVal.decEq a b, decEqList as bs with
      | .isTrue h1, .isTrue h2 => .isTrue (by rw [h1, h2])
      | .isFalse h1, _ => .isFalse (by simp [h1])
      | _, .isFalse h2 => .isFalse (by simp [h2])

instance : DecidableEq PyVal := PyVal.decEq

/-! ## `src/gym_smartgrid/constants.py` -/

/-- `headers_bus` from `gym_smartgrid/constants.py`. -/
def headers_bus : List String := ["BUS_I", "BUS_TYPE", "GS", "BS", "VMAX", "VMIN"]

/-- `BUS_H = dict(zip(headers_bus, range(len(headers_bus))))`.  A Python
dict built by zipping a duplicate-free key list with `range` is the
association list pairing each name with its position. -/
def BUS_H : List (String × Nat) := headers_bus.zip (List.range headers_bus.length)

/-- `headers_dev` from `gym_smartgrid/constants.py`. -/
def headers_dev : List String :=
  ["BUS_I", "DEV_TYPE", "Q/P", "QMAX", "QMIN",
   "DEV_STATUS", "PMAX", "PMIN", "PC1", "PC2", "QC1MIN",
   "QC1MAX", "QC2MIN", "QC2MAX", "SOC_MAX", "EFF"]

/-- `DEV_H = dict(zip(headers_dev, range(len(headers_dev))))`. -/
def DEV_H : List (String × Nat) := headers_dev.zip (List.range headers_dev.length)

/-- `headers_branch` from `gym_smartgrid/constants.py`. -/
def headers_branch : List String :=
  ["F_BUS", "T_BUS", "BR_R", "BR_X", "BR_B", "RATE_A",
   "TAP", "SHIFT", "BR_STATUS", "ANGMIN", "ANGMAX"]

/-- `BRANCH_H = dict(zip(headers_branch, range(len(headers_branch))))`. -/
def BRANCH_H : List (String × Nat) := headers_branch.zip (List.range headers_branch.length)

/-- `GRID_SPECS` from `gym_smartgrid/constants.py`. -/
def GRID_SPECS : List String :=
  ["PMIN_BUS", "PMAX_BUS", "QMIN_BUS", "QMAX_BUS", "VMIN_BUS",
   "VMAX_BUS", "PMIN_DEV", "PMAX_DEV", "QMIN_DEV", "QMAX_DEV",
   "DEV_TYPE", "IMAX_BR", "SOC_MIN", "SOC_MAX"]

/-! ## Data model of the rendering history (`ANM6.render_history`)

In `save` mode the history is a pandas `DataFrame` whose first row holds
`{'title', 'specs'}` and whose subsequent rows hold
`{'time', 'state_values', 'potential', 'costs'}` (`_init_render`,
`_update_render`).  Timestamps (`datetime` in the source) are modelled as
integers; the claims never compute with them. -/

/-- The initial row of the history: `pd.Series({'title': title, 'specs': network_specs})`. -/
structure HeadRow where
  title : String
  specs : PyVal
deriving DecidableEq, Repr

/-- A per-step row of the history:
`{'time': self.time, 'state_values': ..., 'potential': ..., 'costs': ...}`. -/
structure DataRow where
  time : Int
  state_values : PyVal
  potential : PyVal
  costs : PyVal
deriving DecidableEq, Repr

/-- The accumulated rendering history: the title/specs row followed by the
appended per-step rows. -/
structure History where
  head : HeadRow
  rows : List DataRow
deriving DecidableEq, Repr

/-- Number of rows of the history as a table (the title/specs row counts). -/
def History.numRows (h : History) : Nat := 1 + h.rows.length

/-- An `ANM6` object: the fields that the rendering shim reads or writes.
`network_specs_rendered` models the value of
`[list(self.network_specs[s]) for s in RENDERED_NETWORK_SPECS]` and
`state_values_rendered` the value of
`[list(self.state[s]) for s in RENDERED_STATE_VALUES]`; the two constant
key lists live in `gym_anm/constants.py`, outside the provided source, so
the comprehensions are carried as precomputed state fields. -/
structure ANM6 where
  render_mode : Option String
  render_history : Option History
  time : Int
  timestep_length : Int
  network_specs_rendered : PyVal
  state_values_rendered : PyVal
  p_gen_potential : PyVal
  e_loss : PyVal
  penalty : PyVal
deriving DecidableEq, Repr

/-- External effects performed by the shim: writing the visualization
page, starting/stopping the server, pushing an update to it, sleeping,
and writing the history to a CSV file. -/
inductive Effect where
  | writeHtml
  | startServer (title : String) (specs : PyVal)
  | serverUpdate (cur_time : Int) (state_values : PyVal) (potential : PyVal) (costs : PyVal)
  | sleepFor (t : Rat)
  | closeServer
  | writeCsv (path : String) (h : History)
deriving DecidableEq, Repr

/-- Python exceptions raised by the shim. -/
inductive PyErr where
  | notImplementedError
  | valueError (msg : String)
  | attributeError
deriving DecidableEq, Repr

/-- Decidable equality for `Except`, so that concrete runs of the shim can
be checked by evaluation. -/
instance {ε α : Type} [DecidableEq ε] [DecidableEq α] : DecidableEq (Except ε α)
  | .ok a, .ok b =>
      if h : a = b then .isTrue (by rw [h]) else .isFalse (by simp [h])
  | .error a, .error b =>
      if h : a = b then .isTrue (by rw [h]) else .isFalse (by simp [h])
  | .ok _, .error _ => .isFalse (by intro h; exact Except.noConfusion h)
  | .error _, .ok _ => .isFalse (by intro h; exact Except.noConfusion h)

/-- Result of running one Python method: the raised exception or the return
value, the object state after the call (Python exceptions leave the
mutations performed so far in place), and the trace of external effects. -/
abbrev Res (α : Type) : Type := Except PyErr α × ANM6 × List Effect

/-! ## Operations (`ANM6` methods) -/

/-- `ANM6._init_render(network_specs)`.  `title = type(self).__name__` is
`"ANM6"`.  In `human`/`replay` mode it writes the page and starts the
server pair; in `save` mode it sets `render_history` to the one-row
DataFrame `[{'title': title, 'specs': network_specs}]`; otherwise it
raises `NotImplementedError`. -/
def ANM6.initRender (st : ANM6) (network_specs : PyVal) : Res Unit :=
  let title := "ANM6"
  if st.render_mode = some "human" ∨ st.render_mode = some "replay" then
    (.ok (), st, [.writeHtml, .startServer title network_specs])
  else if st.render_mode = some "save" then
    (.ok (), { st with render_history := some ⟨⟨title, network_specs⟩, []⟩ }, [])
  else
    (.error .notImplementedError, st, [])

/-- `ANM6._update_render(cur_time, state_values, P_potential, costs, sleep_time)`.
In `human`/`replay` mode it pushes `(cur_time, state_values, P_potential,
costs)` to the server and sleeps; in `save` mode it appends the row
`{'time': self.time, 'state_values': state_values, 'potential':
P_potential, 'costs': costs}` to `render_history` (note: the row stores
`self.time`, not `cur_time`); otherwise it raises `NotImplementedError`.
`self.render_history.append` on `None` would be an `AttributeError`. -/
def ANM6.updateRender (st : ANM6) (cur_time : Int) (state_values P_potential costs : PyVal)
    (sleep_time : Rat) : Res Unit :=
  if st.render_mode = some "human" ∨ st.render_mode = some "replay" then
    (.ok (), st,
     [.serverUpdate cur_time state_values P_potential costs, .sleepFor sleep_time])
  else if st.render_mode = some "save" then
    match st.render_history with
    | some h =>
        let row : DataRow := ⟨st.time, state_values, P_potential, costs⟩
        (.ok (), { st with render_history := some ⟨h.head, h.rows ++ [row]⟩ }, [])
    | none => (.error .attributeError, st, [])
  else
    (.error .notImplementedError, st, [])

/-- The `else` branch of `ANM6.render` (lines 95-101): update the rendering
from the current environment state, with
`cur_time = self.time - self.timestep_length` and
`costs = [self.e_loss, self.penalty]`. -/
def ANM6.renderStep (st : ANM6) (sleep_time : Rat) : Res Unit :=
  st.updateRender (st.time - st.timestep_length) st.state_values_rendered
    st.p_gen_potential (.list [st.e_loss, st.penalty]) sleep_time

/-- `ANM6.render(mode, sleep_time)`.  If `render_mode` is `None` the call
validates `mode` (raising `NotImplementedError` for an unrecognized one,
and clearing `render_history` for `'save'`), stores the mode, runs
`_init_render`, and re-enters `render(mode, sleep_time=1.)`; since
`render_mode` has just been set, that recursive call is exactly the update
branch, embedded here as `renderStep st 1`.  If `render_mode` is already
set the call is the update branch with the given `sleep_time`, and the
`mode` argument is never read. -/
def ANM6.render (st : ANM6) (mode : String) (sleep_time : Rat) : Res Unit :=
  match st.render_mode with
  | none =>
      let validated : Res Unit :=
        if mode = "human" ∨ mode = "replay" then (.ok (), st, [])
        else if mode = "save" then (.ok (), { st with render_history := none }, [])
        else (.error .notImplementedError, st, [])
      match validated with
      | (.error e, st1, effs) => (.error e, st1, effs)
      | (.ok _, st1, effs0) =>
          let st2 := { st1 with render_mode := some mode }
          match st2.initRender st2.network_specs_rendered with
          | (.error e, st3, effs1) => (.error e, st3, effs0 ++ effs1)
          | (.ok _, st3, effs1) =>
              match st3.renderStep 1 with
              | (r, st4, effs2) => (r, st4, effs0 ++ effs1 ++ effs2)
  | some _ => st.renderStep sleep_time

/-- `ANM6.close(path=None)`.  Closes the server in `human`/`replay` mode;
in `save` mode raises `ValueError` when `path is None` (before any field
is mutated), otherwise writes the history to `path` and returns it;
finally sets `render_mode = None`. -/
def ANM6.close (st : ANM6) (path : Option String) : Res (Option History) :=
  let serverEffs : List Effect :=
    if st.render_mode = some "human" ∨ st.render_mode = some "replay" then
      [.closeServer]
    else []
  if st.render_mode = some "save" then
    match path with
    | none =>
        (.error (.valueError "No path specified to save the history."), st, serverEffs)
    | some p =>
        match st.render_history with
        | some h =>
            (.ok (some h), { st with render_mode := none }, serverEffs ++ [.writeCsv p h])
        | none => (.error .attributeError, st, serverEffs)
  else
    (.ok none, { st with render_mode := none }, serverEffs)

/-- `ANM6._unpack_history(history)`.  From the stored table it takes the
`specs` field of row `0` and the column slices `[1:]` of `state_values`,
`potential`, `time` and `costs`; in this embedding the CSV text
round-trip (`repr`/`to_csv` out, `ast.literal_eval`/`strptime` back) is
taken as exact, which is the "modulo text-serialization precision"
proviso of the specification.  Returns `(ns, state_values, p_potential,
times, costs)` in the source's order. -/
def ANM6.unpackHistory (history : History) :
    PyVal × List PyVal × List PyVal × List Int × List PyVal :=
  (history.head.specs,
   history.rows.map (·.state_values),
   history.rows.map (·.potential),
   history.rows.map (·.time),
   history.rows.map (·.costs))

/-- The loop `for i in range(len(obs)): self._update_render(times[i],
obs[i], p_pot[i], costs, sleep_time)` of `ANM6.replay`.  The lists
`times`, `obs` and `p_pot` all have length `len(obs)` (they are columns
of the same table), so iterating over their zip is the source's indexed
loop.  Note that the source passes the entire `costs` list, not
`costs[i]`, to every iteration. -/
def ANM6.replayLoop (st : ANM6) (items : List (Int × PyVal × PyVal)) (costs : PyVal)
    (sleep_time : Rat) : Res Unit :=
  match items with
  | [] => (.ok (), st, [])
  | (t, o, p) :: rest =>
      match st.updateRender t o p costs sleep_time with
      | (.error e, st1, effs) => (.error e, st1, effs)
      | (.ok _, st1, effs) =>
          match ANM6.replayLoop st1 rest costs sleep_time with
          | (r, st2, effs2) => (r, st2, effs ++ effs2)

/-- `ANM6.replay(path, sleep_time=0.1)`.  `self.reset()` (defined outside
the provided slice) re-initializes the environment fields and is modelled
as leaving the state unchanged; it touches nothing this method reads.
`fileData` is the parsed content of the CSV file at `path`, with the text
round-trip taken as exact (see `ANM6.unpackHistory`).  After setting
`render_mode = 'replay'` the method unpacks the history, initializes the
rendering, feeds each step through `_update_render` — passing the whole
parsed `costs` list to every call — and closes. -/
def ANM6.replay (st : ANM6) (fileData : History) (sleep_time : Rat) : Res Unit :=
  let st1 := { st with render_mode := some "replay" }
  let unpacked := ANM6.unpackHistory fileData
  let ns := unpacked.1
  let obs := unpacked.2.1
  let p_pot := unpacked.2.2.1
  let times := unpacked.2.2.2.1
  let costs := unpacked.2.2.2.2
  match st1.initRender ns with
  | (.error e, st2, effs) => (.error e, st2, effs)
  | (.ok _, st2, effs0) =>
      match st2.replayLoop (times.zip (obs.zip p_pot)) (.list costs) sleep_time with
      | (.error e, st3, effs1) => (.error e, st3, effs0 ++ effs1)
      | (.ok _, st3, effs1) =>
          match st3.close none with
          | (r, st4, effs2) =>
              (r.map (fun _ => ()), st4, effs0 ++ effs1 ++ effs2)

/-! ## Run drivers and observation helpers

A recording run, as described by the specification, is: one `render`
call that initializes `save` mode, then one `render` call per
environment step (the environment fields having been advanced by `step`,
which is outside this slice), then `close(path)`.  `EnvSnapshot`
captures the environment fields as they stand at one of those later
`render` calls. -/

/-- The environment fields read by the update branch of `render`, as they
stand when one `render` call is made. -/
structure EnvSnapshot where
  time : Int
  state_values : PyVal
  p_gen : PyVal
  e_loss : PyVal
  penalty : PyVal
deriving DecidableEq, Repr

/-- Install an environment snapshot into the object (what the environment
dynamics, outside this slice, do between two `render` calls). -/
def ANM6.setEnv (st : ANM6) (e : EnvSnapshot) : ANM6 :=
  { st with time := e.time, state_values_rendered := e.state_values,
            p_gen_potential := e.p_gen, e_loss := e.e_loss, penalty := e.penalty }

/-- The history row that the update branch of `render` appends in `save`
mode, as a function of the current object state. -/
def ANM6.rowOf (st : ANM6) : DataRow :=
  ⟨st.time, st.state_values_rendered, st.p_gen_potential, .list [st.e_loss, st.penalty]⟩

/-- The history row recorded for an environment snapshot. -/
def EnvSnapshot.row (e : EnvSnapshot) : DataRow :=
  ⟨e.time, e.state_values, e.p_gen, .list [e.e_loss, e.penalty]⟩

/-- The per-step `render` calls of a recording run: for each snapshot,
advance the environment fields and call `render('save', sleep_time)`. -/
def ANM6.runSaveSteps (st : ANM6) (steps : List EnvSnapshot) (sleep_time : Rat) : Res Unit :=
  match steps with
  | [] => (.ok (), st, [])
  | e :: rest =>
      match (st.setEnv e).render "save" sleep_time with
      | (.error err, st1, effs) => (.error err, st1, effs)
      | (.ok _, st1, effs) =>
          match st1.runSaveSteps rest sleep_time with
          | (r, st2, effs2) => (r, st2, effs ++ effs2)

/-- A full recording run: initial `render('save', ...)`, one `render` per
snapshot, then `close(path)`. -/
def ANM6.runSave (st0 : ANM6) (steps : List EnvSnapshot) (path : String) (sleep_time : Rat) :
    Res (Option History) :=
  match st0.render "save" sleep_time with
  | (.error e, st1, effs) => (.error e, st1, effs)
  | (.ok _, st1, effs0) =>
      match st1.runSaveSteps steps sleep_time with
      | (.error e, st2, effs1) => (.error e, st2, effs0 ++ effs1)
      | (.ok _, st2, effs1) =>
          match st2.close (some path) with
          | (r, st3, effs2) => (r, st3, effs0 ++ effs1 ++ effs2)

/-- The `costs` arguments fed to `_update_render` that reach the
visualization server, in order. -/
def serverFeedCosts (effs : List Effect) : List PyVal :=
  effs.filterMap fun e => match e with
    | .serverUpdate _ _ _ c => some c
    | _ => none

/-- The `state_values` arguments fed to `_update_render` that reach the
visualization server, in order. -/
def serverFeedStateValues (effs : List Effect) : List PyVal :=
  effs.filterMap fun e => match e with
    | .serverUpdate _ sv _ _ => some sv
    | _ => none

/-- The `P_potential` arguments fed to `_update_render` that reach the
visualization server, in order. -/
def serverFeedPotentials (effs : List Effect) : List PyVal :=
  effs.filterMap fun e => match e with
    | .serverUpdate _ _ p _ => some p
    | _ => none

/-! ## Concrete sample data for witnesses and counterexamples -/

/-- A freshly constructed environment (no rendering mode set), with small
concrete values in every field. -/
def sampleEnv : ANM6 :=
  { render_mode := none, render_history := none, time := 15, timestep_length := 15,
    network_specs_rendered := .list [.list [.num 1, .num 2]],
    state_values_rendered := .list [.list [.num 3, .num 4]],
    p_gen_potential := .list [.num 5],
    e_loss := .num 6, penalty := .num 7 }

/-- The environment snapshot of a second step. -/
def sampleSnap : EnvSnapshot :=
  { time := 30, state_values := .list [.list [.num 30, .num 40]],
    p_gen := .list [.num 50], e_loss := .num 8, penalty := .num 9 }

/-- The history that the recording run `sampleEnv` → `sampleSnap` →
`close` accumulates: the title/specs row and two data rows with distinct
cost pairs. -/
def sampleHistory : History :=
  ⟨⟨"ANM6", .list [.list [.num 1, .num 2]]⟩,
   [⟨15, .list [.list [.num 3, .num 4]], .list [.num 5], .list [.num 6, .num 7]⟩,
    ⟨30, .list [.list [.num 30, .num 40]], .list [.num 50], .list [.num 8, .num 9]⟩]⟩

/-- An environment whose rendering mode has already been set to `'human'`
by an earlier `render` call. -/
def sampleHumanEnv : ANM6 := { sampleEnv with render_mode := some "human" }

/-- An environment recording in `'save'` mode, holding `sampleHistory`. -/
def sampleSaveEnv : ANM6 :=
  { sampleEnv with render_mode := some "save", render_history := some sampleHistory }

/-! ## Behavioral lemmas about the shim -/

/-- Once a rendering mode is stored, `render` is exactly the update branch
and never reads its `mode` argument. -/
theorem render_with_mode_set (st : ANM6) (mode : String) (s : Rat)
    (hm : st.render_mode ≠ none) : st.render mode s = st.renderStep s := by
  rcases h : st.render_mode with _ | m
  · exact absurd h hm
  · simp [ANM6.render, h]

/-- In `save` mode with an existing history, any `render` call appends the
row of the current environment fields and produces no external effect. -/
theorem render_save_appends (st : ANM6) (mode : String) (s : Rat) (h : History)
    (hm : st.render_mode = some "save") (hh : st.render_history = some h) :
    st.render mode s =
      (.ok (), { st with render_history := some ⟨h.head, h.rows ++ [st.rowOf]⟩ }, []) := by
  rw [render_with_mode_set st mode s (by rw [hm]; exact Option.noConfusion)]
  simp [ANM6.renderStep, ANM6.updateRender, hm, hh, ANM6.rowOf]

/-- The first `render('save', ...)` call: clears the history, stores the
mode, creates the one-row record and (through the recursive call) appends
the row of the current environment fields, with no external effect. -/
theorem render_first_save (st : ANM6) (s : Rat) (hm : st.render_mode = none) :
    st.render "save" s =
      (.ok (),
       { st with render_mode := some "save",
                 render_history :=
                   some ⟨⟨"ANM6", st.network_specs_rendered⟩, [st.rowOf]⟩ },
       []) := by
  rcases st with ⟨rm, rh, t, dt, ns, sv, pg, el, pe⟩
  simp only at hm
  subst hm
  rfl

/-- Each later `render('save', ...)` call of a recording run appends the
row of its snapshot; the loop extends the history by the rows of the
snapshots, in order, and produces no external effect. -/
theorem runSaveSteps_save (steps : List EnvSnapshot) (st : ANM6) (s : Rat)
    (hd : HeadRow) (rows : List DataRow)
    (hm : st.render_mode = some "save") (hh : st.render_history = some ⟨hd, rows⟩) :
    ∃ st', st.runSaveSteps steps s = (.ok (), st', []) ∧
      st'.render_mode = some "save" ∧
      st'.render_history = some ⟨hd, rows ++ steps.map EnvSnapshot.row⟩ := by
  induction steps generalizing st rows with
  | nil =>
      exact ⟨st, by simp [ANM6.runSaveSteps], hm, by simp [hh]⟩
  | cons e rest ih =>
      have hm' : (st.setEnv e).render_mode = some "save" := hm
      have hh' : (st.setEnv e).render_history = some ⟨hd, rows⟩ := hh
      have hrow : (st.setEnv e).rowOf = e.row := rfl
      have hstep := render_save_appends (st.setEnv e) "save" s ⟨hd, rows⟩ hm' hh'
      rw [hrow] at hstep
      obtain ⟨st', h1, h2, h3⟩ :=
        ih { st.setEnv e with render_history := some ⟨hd, rows ++ [e.row]⟩ }
          (rows ++ [e.row]) hm' rfl
      refine ⟨st', ?_, h2, by simpa using h3⟩
      simp [ANM6.runSaveSteps, hstep, h1]

/-- `close(path)` in `save` mode with an accumulated history: writes the
file, returns the history, and clears the stored mode. -/
theorem close_save_with_path (st : ANM6) (p : String) (h : History)
    (hm : st.render_mode = some "save") (hh : st.render_history = some h) :
    st.close (some p) =
      (.ok (some h), { st with render_mode := none }, [.writeCsv p h]) := by
  simp [ANM6.close, hm, hh]

/-- The complete `save`-mode recording run, started from an uninitialized
environment: it succeeds and both writes and returns the history made of
the title/specs row, the row of the initial environment fields, and one
row per later snapshot, in order. -/
theorem runSave_spec (st0 : ANM6) (steps : List EnvSnapshot) (path : String) (s : Rat)
    (hm : st0.render_mode = none) :
    ∃ stf, st0.runSave steps path s =
      (.ok (some ⟨⟨"ANM6", st0.network_specs_rendered⟩, st0.rowOf :: steps.map EnvSnapshot.row⟩),
       stf,
       [.writeCsv path ⟨⟨"ANM6", st0.network_specs_rendered⟩, st0.rowOf :: steps.map EnvSnapshot.row⟩]) := by
  have h1 := render_first_save st0 s hm
  obtain ⟨st', hs, hm', hh'⟩ :=
    runSaveSteps_save steps
      { st0 with render_mode := some "save",
                 render_history := some ⟨⟨"ANM6", st0.network_specs_rendered⟩, [st0.rowOf]⟩ }
      s ⟨"ANM6", st0.network_specs_rendered⟩ [st0.rowOf] rfl rfl
  have hc := close_save_with_path st' path
    ⟨⟨"ANM6", st0.network_specs_rendered⟩, st0.rowOf :: steps.map EnvSnapshot.row⟩ hm'
    (by simpa using hh')
  exact ⟨{ st' with render_mode := none }, by simp [ANM6.runSave, h1, hs, hc]⟩

/-- The update branch never changes the stored rendering mode. -/
theorem renderStep_preserves_mode (st : ANM6) (s : Rat) :
    (st.renderStep s).2.1.render_mode = st.render_mode := by
  unfold ANM6.renderStep ANM6.updateRender
  split
  · rfl
  · split
    · split
      · rfl
      · rfl
    · rfl

/-- The update branch never starts the visualization server. -/
theorem renderStep_no_server_start (st : ANM6) (s : Rat) (t : String) (sp : PyVal) :
    Effect.startServer t sp ∉ (st.renderStep s).2.2 := by
  unfold ANM6.renderStep ANM6.updateRender
  split
  · simp
  · split
    · split
      · simp
      · simp
    · simp

/-- The first `render` call in `'human'` or `'replay'` mode: stores the
mode, starts the server (initialization), pushes the initial state and
sleeps for one second. -/
theorem render_first_live (st : ANM6) (mode : String) (s : Rat)
    (hm : st.render_mode = none) (hv : mode = "human" ∨ mode = "replay") :
    st.render mode s =
      (.ok (), { st with render_mode := some mode },
       [.writeHtml, .startServer "ANM6" st.network_specs_rendered,
        .serverUpdate (st.time - st.timestep_length) st.state_values_rendered
          st.p_gen_potential (.list [st.e_loss, st.penalty]),
        .sleepFor 1]) := by
  rcases st with ⟨rm, rh, t, dt, ns, sv, pg, el, pe⟩
  simp only at hm
  subst hm
  rcases hv with hv | hv <;> subst hv <;> rfl

/-- The first `render` call with an unrecognized mode raises
`NotImplementedError` and leaves the object untouched. -/
theorem render_first_invalid (st : ANM6) (mode : String) (s : Rat)
    (hm : st.render_mode = none)
    (h1 : mode ≠ "human") (h2 : mode ≠ "replay") (h3 : mode ≠ "save") :
    st.render mode s = (.error .notImplementedError, st, []) := by
  rcases h : st.render_mode with _ | m
  · simp [ANM6.render, h, h1, h2, h3]
  · rw [h] at hm; exact Option.noConfusion hm

/-- In `save` mode, neither branch of the update reads `sleep_time`. -/
theorem render_save_sleep_irrelevant (st : ANM6) (mode : String) (s s' : Rat)
    (hm : st.render_mode = some "save") :
    st.render mode s = st.render mode s' := by
  rw [render_with_mode_set st mode s (by rw [hm]; exact Option.noConfusion),
      render_with_mode_set st mode s' (by rw [hm]; exact Option.noConfusion)]
  unfold ANM6.renderStep ANM6.updateRender
  rw [hm]
  rfl

/-- The per-step loop of a recording run is independent of `sleep_time`. -/
theorem runSaveSteps_sleep_irrelevant (steps : List EnvSnapshot) (st : ANM6) (s s' : Rat)
    (hm : st.render_mode = some "save") :
    st.runSaveSteps steps s = st.runSaveSteps steps s' := by
  induction steps generalizing st with
  | nil => rfl
  | cons e rest ih =>
      unfold ANM6.runSaveSteps
      rw [render_save_sleep_irrelevant (st.setEnv e) "save" s s' hm]
      rcases h : (st.setEnv e).render "save" s' with ⟨r, st1, effs⟩
      rcases r with e' | u
      · rfl
      · have hm1 : st1.render_mode = some "save" := by
          have := render_with_mode_set (st.setEnv e) "save" s'
            (by show st.render_mode ≠ none; rw [hm]; exact Option.noConfusion)
          rw [this] at h
          have := renderStep_preserves_mode (st.setEnv e) s'
          rw [h] at this
          exact this.trans hm
        dsimp only
        rw [ih st1 hm1]

/-- A complete recording run is independent of the `sleep_time` argument
passed to its `render` calls. -/
theorem runSave_sleep_irrelevant (st0 : ANM6) (steps : List EnvSnapshot) (path : String)
    (s s' : Rat) (hm : st0.render_mode = none) :
    st0.runSave steps path s = st0.runSave steps path s' := by
  unfold ANM6.runSave
  rw [render_first_save st0 s hm, render_first_save st0 s' hm]
  dsimp only
  rw [runSaveSteps_sleep_irrelevant steps _ s s' rfl]

/-! ## Claims -/

/-- C7: each of `BUS_H`, `DEV_H` and `BRANCH_H` maps every field name of
its header list to that name's position in the list; the assigned indices
are pairwise distinct and are exactly `0` through `n-1`, with `n = 6` for
the bus record, `16` for the device record and `11` for the branch
record. -/
theorem C7_header_maps_are_positional :
    ((∀ i : Fin headers_bus.length, BUS_H.lookup (headers_bus.get i) = some i.val) ∧
      BUS_H.map Prod.snd = List.range 6 ∧ (BUS_H.map Prod.fst).Nodup ∧
      headers_bus.length = 6) ∧
    ((∀ i : Fin headers_dev.length, DEV_H.lookup (headers_dev.get i) = some i.val) ∧
      DEV_H.map Prod.snd = List.range 16 ∧ (DEV_H.map Prod.fst).Nodup ∧
      headers_dev.length = 16) ∧
    ((∀ i : Fin headers_branch.length, BRANCH_H.lookup (headers_branch.get i) = some i.val) ∧
      BRANCH_H.map Prod.snd = List.range 11 ∧ (BRANCH_H.map Prod.fst).Nodup ∧
      headers_branch.length = 11) := by
  decide

/-- C3: whenever `close` is called while the rendering mode is `'save'`
and no destination path is given, the call raises a `ValueError` (and, the
error being raised before any mutation, the object is left as it was,
with no external effect). -/
theorem C3_close_save_without_path_raises (st : ANM6)
    (hm : st.render_mode = some "save") :
    st.close none =
      (.error (.valueError "No path specified to save the history."), st, []) := by
  simp [ANM6.close, hm]

/-- Witness for C3 at the concrete recording environment. -/
theorem C3_witness :
    sampleSaveEnv.render_mode = some "save" ∧
    sampleSaveEnv.close none =
      (.error (.valueError "No path specified to save the history."), sampleSaveEnv, []) :=
  ⟨rfl, C3_close_save_without_path_raises sampleSaveEnv rfl⟩

/-- C6: in `'save'` mode, every update operation appends exactly one row
with fields `{time, state_values, potential, costs}` to the in-memory
record, and all previously accumulated rows (and the title/specs row) are
left unchanged. -/
theorem C6_update_appends_one_row (st : ANM6) (t : Int) (sv p c : PyVal) (s : Rat)
    (h : History) (hm : st.render_mode = some "save") (hh : st.render_history = some h) :
    st.updateRender t sv p c s =
      (.ok (),
       { st with render_history := some ⟨h.head, h.rows ++ [DataRow.mk st.time sv p c]⟩ },
       []) := by
  simp [ANM6.updateRender, hm, hh]

/-- Witness for C6 at the concrete recording environment. -/
theorem C6_witness :
    sampleSaveEnv.render_mode = some "save" ∧
    sampleSaveEnv.render_history = some sampleHistory ∧
    sampleSaveEnv.updateRender 45 (.num 1) (.num 2) (.num 3) 0 =
      (.ok (),
       { sampleSaveEnv with
         render_history :=
           some (History.mk sampleHistory.head (sampleHistory.rows ++
             [DataRow.mk sampleSaveEnv.time (.num 1) (.num 2) (.num 3)])) },
       []) :=
  ⟨rfl, rfl,
   C6_update_appends_one_row sampleSaveEnv 45 (.num 1) (.num 2) (.num 3) 0 sampleHistory rfl rfl⟩

/-- C8: if `close` raises the `ValueError` (`'save'` mode, no path), the
rendering state is unchanged by the failed call — the stored mode is still
`'save'` and the accumulated history is intact — so the same history can
still be closed later with a path. -/
theorem C8_failed_close_preserves_state (st : ANM6)
    (hm : st.render_mode = some "save") :
    (st.close none).1 = .error (.valueError "No path specified to save the history.") ∧
    (st.close none).2.1 = st ∧
    (st.close none).2.1.render_mode = some "save" ∧
    (st.close none).2.1.render_history = st.render_history ∧
    (∀ h p, st.render_history = some h →
      ((st.close none).2.1.close (some p)).1 = .ok (some h)) := by
  have h1 : st.close none =
      (.error (.valueError "No path specified to save the history."), st, []) := by
    simp [ANM6.close, hm]
  refine ⟨by rw [h1], by rw [h1], by rw [h1]; exact hm, by rw [h1], ?_⟩
  intro h p hh
  rw [h1]
  rw [close_save_with_path st p h hm hh]

/-- Witness for C8 at the concrete recording environment. -/
theorem C8_witness :
    sampleSaveEnv.render_mode = some "save" ∧
    ((sampleSaveEnv.close none).1 =
        .error (.valueError "No path specified to save the history.") ∧
      (sampleSaveEnv.close none).2.1 = sampleSaveEnv ∧
      (sampleSaveEnv.close none).2.1.render_mode = some "save" ∧
      (sampleSaveEnv.close none).2.1.render_history = sampleSaveEnv.render_history ∧
      (∀ h p, sampleSaveEnv.render_history = some h →
        (((sampleSaveEnv.close none).2.1.close (some p)).1 = .ok (some h)))) :=
  ⟨rfl, C8_failed_close_preserves_state sampleSaveEnv rfl⟩

/-- C9: calling `close` when no rendering is active (stored mode `None`)
does not fail: it performs no teardown or file write, returns `None`, and
leaves the stored mode `None` (the whole object unchanged). -/
theorem C9_close_without_active_rendering (st : ANM6) (path : Option String)
    (hm : st.render_mode = none) :
    st.close path = (.ok none, st, []) := by
  rcases st with ⟨rm, rh, t, dt, ns, sv, pg, el, pe⟩
  simp only at hm
  subst hm
  rcases path with _ | p <;> rfl

/-- Witness for C9 at the concrete fresh environment. -/
theorem C9_witness :
    sampleEnv.render_mode = none ∧
    sampleEnv.close none = (.ok none, sampleEnv, []) ∧
    sampleEnv.close (some "hist.csv") = (.ok none, sampleEnv, []) :=
  ⟨rfl, C9_close_without_active_rendering sampleEnv none rfl,
   C9_close_without_active_rendering sampleEnv (some "hist.csv") rfl⟩

/-- C2 counterexample: the claim says an unrecognized mode fails the same
way regardless of whether a rendering mode has already been set, but once
a mode is stored the `mode` argument is never validated: with the mode
already `'human'`, `render('invalid', ...)` succeeds instead of raising
`NotImplementedError`. -/
theorem C2_counterexample :
    sampleHumanEnv.render_mode = some "human" ∧
    ¬ ("invalid" = "human" ∨ "invalid" = "replay" ∨ "invalid" = "save") ∧
    (sampleHumanEnv.render "invalid" 0).1 = .ok () := by
  decide

/-- C2 (amended): a `render` call with a mode outside
`{'human', 'replay', 'save'}` raises `NotImplementedError` when no
rendering mode has been set; once a mode is set, the `mode` argument is
ignored and the call follows the stored mode's code path without
failing on account of the invalid mode. -/
theorem C2_invalid_mode (st : ANM6) (mode : String) (s : Rat)
    (h1 : mode ≠ "human") (h2 : mode ≠ "replay") (h3 : mode ≠ "save") :
    (st.render_mode = none → st.render mode s = (.error .notImplementedError, st, [])) ∧
    (st.render_mode ≠ none → st.render mode s = st.renderStep s) :=
  ⟨fun hm => render_first_invalid st mode s hm h1 h2 h3,
   fun hm => render_with_mode_set st mode s hm⟩

/-- Witness for C2 at the mode `"invalid"`: on a fresh environment the
call raises, on an environment already in `'human'` mode it is the update
branch. -/
theorem C2_witness :
    (sampleEnv.render "invalid" 0 = (.error .notImplementedError, sampleEnv, [])) ∧
    (sampleHumanEnv.render "invalid" 0 = sampleHumanEnv.renderStep 0) :=
  ⟨(C2_invalid_mode sampleEnv "invalid" 0 (by decide) (by decide) (by decide)).1 rfl,
   (C2_invalid_mode sampleHumanEnv "invalid" 0 (by decide) (by decide)
     (by decide)).2 (by decide)⟩

/-- C5: the shim's two-state lifecycle.  With a mode already stored, any
`render` call is exactly the stored mode's update branch: the `mode`
argument is never read, the stored mode is unchanged, and no
initialization (server start) happens.  With no mode stored, `render`
initializes: it stores the mode and either starts the server
(`'human'`/`'replay'`) or creates the in-memory record (`'save'`). -/
theorem C5_two_state_lifecycle (st : ANM6) (mode : String) (s : Rat) :
    (∀ m, st.render_mode = some m →
      st.render mode s = st.renderStep s ∧
      (st.render mode s).2.1.render_mode = some m ∧
      (∀ t sp, Effect.startServer t sp ∉ (st.render mode s).2.2)) ∧
    (st.render_mode = none → (mode = "human" ∨ mode = "replay") →
      ∃ st' effs, st.render mode s = (.ok (), st', effs) ∧
        st'.render_mode = some mode ∧
        Effect.startServer "ANM6" st.network_specs_rendered ∈ effs) ∧
    (st.render_mode = none → mode = "save" →
      ∃ st', st.render mode s = (.ok (), st', []) ∧
        st'.render_mode = some "save" ∧
        st'.render_history = some ⟨⟨"ANM6", st.network_specs_rendered⟩, [st.rowOf]⟩) := by
  refine ⟨?_, ?_, ?_⟩
  · intro m hm
    have hne : st.render_mode ≠ none := by rw [hm]; exact Option.noConfusion
    have he := render_with_mode_set st mode s hne
    refine ⟨he, ?_, ?_⟩
    · rw [he, renderStep_preserves_mode]; exact hm
    · intro t sp; rw [he]; exact renderStep_no_server_start st s t sp
  · intro hm hv
    exact ⟨{ st with render_mode := some mode }, _,
      render_first_live st mode s hm hv, rfl, by simp⟩
  · intro hm hmode
    subst hmode
    exact ⟨_, render_first_save st s hm, rfl, rfl⟩

/-- Witness for C5: concrete instances of the three lifecycle clauses. -/
theorem C5_witness :
    (sampleHumanEnv.render "save" 2 = sampleHumanEnv.renderStep 2) ∧
    (sampleEnv.render "save" 2).2.1.render_mode = some "save" := by
  refine ⟨((C5_two_state_lifecycle sampleHumanEnv "save" 2).1 "human" rfl).1, ?_⟩
  obtain ⟨st', h, hm', -⟩ := (C5_two_state_lifecycle sampleEnv "save" 2).2.2 rfl rfl
  rw [h]
  exact hm'

/-- C4: a recording run closed with a path returns (and writes) exactly
the accumulated history — the title/specs row, the row appended by the
initializing `render` call, and one row per later update — which is
non-empty; in `'human'` and `'replay'` modes `close` returns no record. -/
theorem C4_close_returns_accumulated (st0 : ANM6) (steps : List EnvSnapshot)
    (path : String) (s : Rat) (hm : st0.render_mode = none) :
    (∃ stf, st0.runSave steps path s =
      (.ok (some (History.mk ⟨"ANM6", st0.network_specs_rendered⟩
          (st0.rowOf :: steps.map EnvSnapshot.row))), stf,
       [.writeCsv path (History.mk ⟨"ANM6", st0.network_specs_rendered⟩
          (st0.rowOf :: steps.map EnvSnapshot.row))])) ∧
    0 < (History.mk ⟨"ANM6", st0.network_specs_rendered⟩
          (st0.rowOf :: steps.map EnvSnapshot.row)).numRows ∧
    (∀ st : ANM6, ∀ p : Option String,
      (st.render_mode = some "human" ∨ st.render_mode = some "replay") →
      ∃ st', st.close p = (.ok none, st', [.closeServer])) := by
  refine ⟨runSave_spec st0 steps path s hm, by simp [History.numRows], ?_⟩
  intro st p hm'
  refine ⟨{ st with render_mode := none }, ?_⟩
  rcases hm' with h | h <;> simp [ANM6.close, h]

/-- Witness for C4: the concrete two-step recording run returns exactly
`sampleHistory`. -/
theorem C4_witness :
    (sampleEnv.runSave [sampleSnap] "hist.csv" 0).1 = .ok (some sampleHistory) := by
  obtain ⟨⟨stf, hrun⟩, -, -⟩ :=
    C4_close_returns_accumulated sampleEnv [sampleSnap] "hist.csv" 0 rfl
  rw [hrun]
  rfl

/-- C10: the history accumulated in `'save'` mode is independent of the
pacing argument: each `render` call, each update, and a whole recording
run give the same record (indeed the same result altogether, `save` mode
producing no sleep effect) whatever `sleep_time` values are passed. -/
theorem C10_record_independent_of_pacing :
    (∀ (st : ANM6) (mode : String) (s s' : Rat), st.render_mode = some "save" →
      st.render mode s = st.render mode s') ∧
    (∀ (st : ANM6) (t : Int) (sv p c : PyVal) (s s' : Rat), st.render_mode = some "save" →
      st.updateRender t sv p c s = st.updateRender t sv p c s') ∧
    (∀ (st0 : ANM6) (steps : List EnvSnapshot) (path : String) (s s' : Rat),
      st0.render_mode = none →
      st0.runSave steps path s = st0.runSave steps path s') := by
  refine ⟨fun st mode s s' hm => render_save_sleep_irrelevant st mode s s' hm, ?_,
    fun st0 steps path s s' hm => runSave_sleep_irrelevant st0 steps path s s' hm⟩
  intro st t sv p c s s' hm
  unfold ANM6.updateRender
  rw [hm]
  rfl

/-- Witness for C10 at concrete runs differing only in their pacing. -/
theorem C10_witness :
    sampleSaveEnv.render "save" 0 = sampleSaveEnv.render "save" 5 ∧
    sampleSaveEnv.updateRender 45 (.num 1) (.num 2) (.num 3) 0 =
      sampleSaveEnv.updateRender 45 (.num 1) (.num 2) (.num 3) 5 ∧
    sampleEnv.runSave [sampleSnap] "hist.csv" 0 =
      sampleEnv.runSave [sampleSnap] "hist.csv" 5 :=
  ⟨C10_record_independent_of_pacing.1 sampleSaveEnv "save" 0 5 rfl,
   C10_record_independent_of_pacing.2.1 sampleSaveEnv 45 (.num 1) (.num 2) (.num 3) 0 5 rfl,
   C10_record_independent_of_pacing.2.2 sampleEnv [sampleSnap] "hist.csv" 0 5 rfl⟩

/-- C1: the save/replay round trip at the concrete two-step recording.
Recording produces `sampleHistory`; replaying it feeds the per-step
update operation the recorded sequences of state values and of
generation potentials, but NOT the recorded sequence of cost pairs: the
source passes the whole parsed `costs` list (instead of `costs[i]`) to
every update, so each step receives the list of all recorded cost pairs.
This contradicts the round-trip property and `_update_render`'s own
documented interface (`costs` = the energy-loss/penalty pair). -/
theorem C1_replay_cost_feed_diverges :
    (sampleEnv.runSave [sampleSnap] "hist.csv" 0).1 = .ok (some sampleHistory) ∧
    serverFeedStateValues (sampleEnv.replay sampleHistory (1/10)).2.2 =
      sampleHistory.rows.map (fun r => r.state_values) ∧
    serverFeedPotentials (sampleEnv.replay sampleHistory (1/10)).2.2 =
      sampleHistory.rows.map (fun r => r.potential) ∧
    serverFeedCosts (sampleEnv.replay sampleHistory (1/10)).2.2 =
      [.list (sampleHistory.rows.map (fun r => r.costs)),
       .list (sampleHistory.rows.map (fun r => r.costs))] ∧
    serverFeedCosts (sampleEnv.replay sampleHistory (1/10)).2.2 ≠
      sampleHistory.rows.map (fun r => r.costs) := by
  decide
